import Mathlib

/-!
# LM3533 backlight driver

A shallow embedding of `drivers/video/backlight/lm3533.c`.

* The file-scope variables of the driver (`cur_main_lcd_level`,
  `saved_main_lcd_level`, `backlight_status`, `first_boot`) and the
  `props.brightness` field of the registered backlight device form the
  record `State`; every driver function is a function from `State` to the
  new `State` together with the list of hardware operations it issued, in
  program order.
* C `int` values are `Int`.  The driver performs no arithmetic on them, only
  comparisons and assignments, so no wrap-around can occur.  The one narrowing
  conversion, to the `unsigned char` parameters of `lm3533_write_reg`, is the
  explicit `% 256`.
* `backlight_mtx` is not modelled: the embedding is sequential.  Log output
  (`pr_info`, `dev_warn`, ...) is not modelled.
-/

namespace LM3533

/-! ## Data model -/

/-- Value of the macro BL_ON. -/
def BL_ON : Int := 1

/-- Value of the macro BL_OFF. -/
def BL_OFF : Int := 0

/-- The fields of `struct lm3533_device` that the driver logic reads.
`blmap` is a `char *`: `none` is the null pointer, `some m` a pointer whose
element at index `i` is `m i`. -/
structure lm3533_device where
  gpio : Int
  max_current : Int
  min_brightness : Int
  max_brightness : Int
  default_brightness : Int
  blmap : Option (Int → Int)
  blmap_size : Int

/-- The fields of `struct backlight_platform_data` copied by `lm3533_probe`. -/
structure backlight_platform_data where
  gpio : Int
  max_current : Int
  min_brightness : Int
  max_brightness : Int
  default_brightness : Int
  blmap : Option (Int → Int)
  blmap_size : Int

/-- One call into the bus, pin or delay services, as issued by the driver.
`write_reg reg val` is one `i2c_transfer` of the two bytes `reg`, `val`;
`gpio_tlmm_config g` is the call
`gpio_tlmm_config(GPIO_CFG(g, 0, GPIO_CFG_OUTPUT, GPIO_CFG_NO_PULL, GPIO_CFG_2MA), GPIO_CFG_ENABLE)`. -/
inductive Op where
  | write_reg (reg : Nat) (val : Int)
  | gpio_direction_output (gpio : Int) (value : Int)
  | gpio_set_value_cansleep (gpio : Int) (value : Int)
  | gpio_tlmm_config (gpio : Int)
  | mdelay (ms : Nat)
  | msleep (ms : Nat)
  deriving DecidableEq, Repr

/-- The mutable variables of the driver. -/
structure State where
  cur_main_lcd_level : Int
  saved_main_lcd_level : Int
  backlight_status : Int
  first_boot : Bool
  props_brightness : Int
  deriving DecidableEq, Repr

/-- The file-scope initialisers: `static int cur_main_lcd_level;`,
`static int saved_main_lcd_level;`, `static int backlight_status = BL_ON;`,
`static bool first_boot = true;`.  `props_brightness` is the zeroed
`struct backlight_properties` of `lm3533_probe`. -/
def static_init : State :=
  { cur_main_lcd_level := 0
    saved_main_lcd_level := 0
    backlight_status := BL_ON
    first_boot := true
    props_brightness := 0 }

/-- The successful path of `lm3533_probe`: the device record is filled from the
platform data and `bl_dev->props.brightness` is set to the default brightness.
No file-scope variable is assigned. -/
def lm3533_probe (pdata : backlight_platform_data) (s : State) : lm3533_device × State :=
  ({ gpio := pdata.gpio
     max_current := pdata.max_current
     min_brightness := pdata.min_brightness
     max_brightness := pdata.max_brightness
     default_brightness := pdata.default_brightness
     blmap := pdata.blmap
     blmap_size := pdata.blmap_size },
   { s with props_brightness := pdata.default_brightness })

/-- The controller state once the device is attached and before any operation
has run. -/
def initial_state (pdata : backlight_platform_data) : State :=
  (lm3533_probe pdata static_init).2

/-! ## Driver functions

`gpio_is_valid` is declared in `linux/gpio.h`, outside the driver; it is taken
as a parameter. -/

/-- `lm3533_hw_reset`. -/
def lm3533_hw_reset (gpio_is_valid : Int → Bool) (dev : lm3533_device) : List Op :=
  if gpio_is_valid dev.gpio then
    [Op.gpio_direction_output dev.gpio 1,
     Op.gpio_set_value_cansleep dev.gpio 1,
     Op.mdelay 1]
  else []

/-- `lm3533_write_reg`: both parameters are `unsigned char`.  A failed transfer
is only logged, and the function returns 0 either way. -/
def lm3533_write_reg (reg : Nat) (val : Int) : List Op :=
  [Op.write_reg (reg % 256) (val % 256)]

/-- The local variable `cal_value` of `lm3533_set_main_current_level` after the
if / else-if chain of its `level != 0` branch (it is initialised to 0). -/
def cal_value (dev : lm3533_device) (level : Int) : Int :=
  if level > 0 ∧ level ≤ dev.min_brightness then dev.min_brightness
  else if level > dev.min_brightness ∧ level ≤ dev.max_brightness then level
  else if level > dev.max_brightness then dev.max_brightness
  else 0

/-- `lm3533_set_main_current_level`. -/
def lm3533_set_main_current_level (dev : lm3533_device) (level : Int) (s : State) :
    State × List Op :=
  let s1 := { s with cur_main_lcd_level := level, props_brightness := level }
  let ops :=
    if level ≠ 0 then
      match dev.blmap with
      | some blmap =>
        if cal_value dev level < dev.blmap_size then
          lm3533_write_reg 0x40 (blmap (cal_value dev level))
        else []
      | none => lm3533_write_reg 0x40 (cal_value dev level)
    else lm3533_write_reg 0x27 0x00
  (s1, ops ++ [Op.mdelay 1])

/-- `lm3533_backlight_on`. -/
def lm3533_backlight_on (gpio_is_valid : Int → Bool) (dev : lm3533_device) (level : Int)
    (s : State) : State × List Op :=
  let ops1 :=
    if s.backlight_status = BL_OFF then
      lm3533_hw_reset gpio_is_valid dev
        ++ lm3533_write_reg 0x10 0x0
        ++ lm3533_write_reg 0x14 0x1
        ++ lm3533_write_reg 0x1A 0x00
        ++ lm3533_write_reg 0x1F 0x13
        ++ lm3533_write_reg 0x27 0x1
        ++ lm3533_write_reg 0x2C 0xE
    else []
  let ops2 := if s.first_boot then lm3533_write_reg 0x17 dev.max_current else []
  let s2 := if s.first_boot then { s with first_boot := false } else s
  let r := lm3533_set_main_current_level dev level s2
  ({ r.1 with backlight_status := BL_ON }, ops1 ++ ops2 ++ r.2)

/-- `lm3533_backlight_off`. -/
def lm3533_backlight_off (dev : lm3533_device) (s : State) : State × List Op :=
  if s.backlight_status = BL_OFF then (s, [])
  else
    let s1 := { s with saved_main_lcd_level := s.cur_main_lcd_level }
    let r := lm3533_set_main_current_level dev 0 s1
    ({ r.1 with backlight_status := BL_OFF },
     r.2 ++ [Op.gpio_tlmm_config dev.gpio, Op.gpio_direction_output dev.gpio 0, Op.msleep 6])

/-- `lm3533_lcd_backlight_set_level`.  `client` is the file-scope pointer
`lm3533_i2c_client`: `none` before the probe and after the removal. -/
def lm3533_lcd_backlight_set_level (gpio_is_valid : Int → Bool)
    (client : Option lm3533_device) (level : Int) (s : State) : State × List Op :=
  match client with
  | none => (s, [])
  | some dev =>
    let level := if level > dev.max_brightness then dev.max_brightness else level
    if level ≠ 0 then lm3533_backlight_on gpio_is_valid dev level s
    else lm3533_backlight_off dev s

/-- `lm3533_bl_resume`. -/
def lm3533_bl_resume (gpio_is_valid : Int → Bool) (dev : lm3533_device) (s : State) :
    State × List Op :=
  lm3533_backlight_on gpio_is_valid dev s.saved_main_lcd_level s

/-- `lm3533_bl_suspend`; the `pm_message_t` argument is only logged. -/
def lm3533_bl_suspend (dev : lm3533_device) (s : State) : State × List Op :=
  lm3533_backlight_off dev s

/-! ## Sequences of controller operations -/

/-- A call of one of the three controller entry points. -/
inductive Cmd where
  | set_level (level : Int)
  | suspend
  | resume
  deriving DecidableEq, Repr

/-- Run one call on an attached device. -/
def step (gpio_is_valid : Int → Bool) (dev : lm3533_device) (c : Cmd) (s : State) :
    State × List Op :=
  match c with
  | Cmd.set_level level => lm3533_lcd_backlight_set_level gpio_is_valid (some dev) level s
  | Cmd.suspend => lm3533_bl_suspend dev s
  | Cmd.resume => lm3533_bl_resume gpio_is_valid dev s

/-- Run the calls in order; the result lists, for each call, the state it
returned in and the operations it issued. -/
def run (gpio_is_valid : Int → Bool) (dev : lm3533_device) :
    List Cmd → State → List (State × List Op)
  | [], _ => []
  | c :: cs, s =>
    step gpio_is_valid dev c s :: run gpio_is_valid dev cs (step gpio_is_valid dev c s).1

/-- The bytes written to register `reg` by a list of operations, in order. -/
def writes_to (reg : Nat) : List Op → List Int
  | [] => []
  | Op.write_reg r v :: ops => if r = reg then v :: writes_to reg ops else writes_to reg ops
  | _ :: ops => writes_to reg ops

/-- Every register write of a list of operations, in order. -/
def reg_writes : List Op → List (Nat × Int)
  | [] => []
  | Op.write_reg r v :: ops => (r, v) :: reg_writes ops
  | _ :: ops => reg_writes ops

/-- Every pin operation of a list of operations, in order. -/
def gpio_ops : List Op → List Op
  | [] => []
  | Op.gpio_direction_output g v :: ops => Op.gpio_direction_output g v :: gpio_ops ops
  | Op.gpio_set_value_cansleep g v :: ops => Op.gpio_set_value_cansleep g v :: gpio_ops ops
  | Op.gpio_tlmm_config g :: ops => Op.gpio_tlmm_config g :: gpio_ops ops
  | _ :: ops => gpio_ops ops

/-- The platform used in the concrete scenarios: pins 0 to 255 exist. -/
def pins256 (g : Int) : Bool := decide (0 ≤ g ∧ g < 256)

/-- Configuration of the concrete scenario: min 10, max 255, default 120, no
calibration table. -/
def scenario_pdata : backlight_platform_data :=
  { gpio := 24, max_current := 0x17, min_brightness := 10, max_brightness := 255,
    default_brightness := 120, blmap := none, blmap_size := 0 }

/-- The device record the probe builds from `scenario_pdata`. -/
def scenario_dev : lm3533_device := (lm3533_probe scenario_pdata static_init).1

/-- The clamp of the Level Mapper, as the specification words it:
a level at or below the minimum maps to the minimum, a level above the minimum
and at most the maximum is unchanged, anything else maps to the maximum. -/
def spec_clamp (min_brightness max_brightness level : Int) : Int :=
  if level ≤ min_brightness then min_brightness
  else if min_brightness < level ∧ level ≤ max_brightness then level
  else max_brightness

/-- A device with the identity calibration table of size 256 and the given
brightness bounds. -/
def identity_table_dev (min_brightness max_brightness : Int) : lm3533_device :=
  { gpio := 24, max_current := 0x17, min_brightness := min_brightness,
    max_brightness := max_brightness, default_brightness := 120,
    blmap := some (fun i => i), blmap_size := 256 }

/-- The state reached from the initial state of the scenario configuration by
set_level(100): the power flag is BL_ON and the recorded level 100. -/
def on_at_100 : State :=
  { cur_main_lcd_level := 100
    saved_main_lcd_level := 0
    backlight_status := BL_ON
    first_boot := false
    props_brightness := 100 }

/-- The state reached from the initial state of the scenario configuration by
set_level(100) and then set_level(0): the power flag is BL_OFF, the recorded
level 0 and the saved level 100. -/
def off_after_100 : State :=
  { cur_main_lcd_level := 0
    saved_main_lcd_level := 100
    backlight_status := BL_OFF
    first_boot := false
    props_brightness := 0 }

/-- The one-shot latch `activated_once` of the specification: it is set once
`first_boot` has been cleared. -/
def activated_once (s : State) : Bool := !s.first_boot

/-- Number of places in a list of flags where the flag goes from false to true. -/
def rises : List Bool → Nat
  | a :: b :: l => (if a = false ∧ b = true then 1 else 0) + rises (b :: l)
  | _ => 0

/-- Number of places in a list of flags where the flag goes from true to false. -/
def falls : List Bool → Nat
  | a :: b :: l => (if a = true ∧ b = false then 1 else 0) + falls (b :: l)
  | _ => 0

/-- The latch before the first call of a run and after each of its calls. -/
def latch_history (gpio_is_valid : Int → Bool) (dev : lm3533_device) (cmds : List Cmd)
    (s : State) : List Bool :=
  activated_once s :: (run gpio_is_valid dev cmds s).map (fun r => activated_once r.1)

/-- Number of calls of a run that wrote the current-limit register 0x17. -/
def current_limit_calls (gpio_is_valid : Int → Bool) (dev : lm3533_device) (cmds : List Cmd)
    (s : State) : Nat :=
  ((run gpio_is_valid dev cmds s).filter (fun r => !(writes_to 0x17 r.2).isEmpty)).length

/-- The concrete scenario: set_level(5), set_level(300), set_level(0), resume on
the scenario configuration. -/
def scenario_run (gpio_is_valid : Int → Bool) (s : State) : List (State × List Op) :=
  run gpio_is_valid scenario_dev
    [Cmd.set_level 5, Cmd.set_level 300, Cmd.set_level 0, Cmd.resume] s

/-- The state reached from the initial state of the scenario configuration by
one suspend: the power flag is BL_OFF and no level was ever set. -/
def off_never_set : State :=
  { cur_main_lcd_level := 0
    saved_main_lcd_level := 0
    backlight_status := BL_OFF
    first_boot := true
    props_brightness := 0 }

/-! ## The exported helpers, the brightness hook and the control surface -/

/-- `lm3533_lcd_backlight_pwm_disable` on an attached device. -/
def lm3533_lcd_backlight_pwm_disable (dev : lm3533_device) (s : State) : State × List Op :=
  if s.backlight_status = BL_OFF then (s, [])
  else (s, lm3533_write_reg 0x17 (Int.land dev.max_current 0x1F))

/-- The flag `BL_CORE_SUSPENDED`, `(1 << 0)` in `linux/backlight.h`, which is
outside the driver. -/
def BL_CORE_SUSPENDED : Nat := 1

/-- The flag `BL_CORE_FBBLANK`, `(1 << 1)` in `linux/backlight.h`, which is
outside the driver. -/
def BL_CORE_FBBLANK : Nat := 2

/-- `bl_set_intensity` on an attached device: the result of the call it makes and
its return value.  `props_state` is `bd->props.state`; `bd->props.brightness`
is the field `props_brightness` of the state. -/
def bl_set_intensity (gpio_is_valid : Int → Bool) (dev : lm3533_device) (props_state : Nat)
    (s : State) : (State × List Op) × Int :=
  let brightness := s.props_brightness
  let brightness :=
    if props_state &&& BL_CORE_FBBLANK ≠ 0 ∨ props_state &&& BL_CORE_SUSPENDED ≠ 0 then 0
    else if brightness = 0 then dev.default_brightness
    else brightness
  (lm3533_lcd_backlight_set_level gpio_is_valid (some dev) brightness s, 0)

/-- The level the brightness subsystem hook passes on, as the specification
words it: 0 when the panel is blanked or suspended, else the default
brightness when the requested value is 0, else the requested value. -/
def spec_hook_level (default_brightness : Int) (blanked suspended : Bool) (b : Int) : Int :=
  if blanked || suspended then 0
  else if b = 0 then default_brightness
  else b

/-- `lcd_backlight_show_level`: the text placed in the buffer. -/
def lcd_backlight_show_level (s : State) : String :=
  "LCD Backlight Level is : " ++ toString s.cur_main_lcd_level ++ "\n"

/-- The value of the leading decimal digits of a text, continuing from `acc`. -/
def decimal_prefix (acc : Nat) : List Char → Nat
  | [] => acc
  | c :: cs =>
    if '0' ≤ c ∧ c ≤ '9' then decimal_prefix (acc * 10 + (c.toNat - 48)) cs else acc

/-- Modelled from the spec: `simple_strtoul(buf, NULL, 10)` of the kernel
library, which is not under src/; the control surface is said to "parse
decimal".  The result is the value of the leading decimal digits of the text,
0 when there is none. -/
def simple_strtoul (buf : String) : Nat := decimal_prefix 0 buf.toList

/-- The conversion of an `unsigned long` to the 32-bit `int` it is assigned to. -/
def int_of_ulong (n : Nat) : Int :=
  if n % 2 ^ 32 < 2 ^ 31 then ((n % 2 ^ 32 : Nat) : Int) else ((n % 2 ^ 32 : Nat) : Int) - 2 ^ 32

/-- The error number `EINVAL` of `errno.h`, which is outside the driver. -/
def EINVAL : Int := 22

/-- `lcd_backlight_store_level`: the new state, the operations issued and the
return value.  `count` is the number of bytes written to the attribute. -/
def lcd_backlight_store_level (dev : lm3533_device) (buf : String) (count : Nat) (s : State) :
    (State × List Op) × Int :=
  if count = 0 then ((s, []), -EINVAL)
  else
    let level := int_of_ulong (simple_strtoul buf)
    let r := lm3533_set_main_current_level dev level s
    (({ r.1 with cur_main_lcd_level := level }, r.2), (count : Int))

/-- `lcd_backlight_store_on_off`: the new state, the operations issued and the
return value. -/
def lcd_backlight_store_on_off (gpio_is_valid : Int → Bool) (dev : lm3533_device)
    (buf : String) (count : Nat) (s : State) : (State × List Op) × Int :=
  if count = 0 then ((s, []), -EINVAL)
  else
    let on_off := int_of_ulong (simple_strtoul buf)
    if on_off = 1 then (lm3533_bl_resume gpio_is_valid dev s, (count : Int))
    else if on_off = 0 then (lm3533_bl_suspend dev s, (count : Int))
    else ((s, []), (count : Int))

/-- An operation on the controller: the three entry points and the two write
endpoints of the control surface. -/
inductive Ctl where
  | set_level (level : Int)
  | suspend
  | resume
  | store_level (buf : String) (count : Nat)
  | store_on_off (buf : String) (count : Nat)
  deriving DecidableEq, Repr

/-- Run one operation on an attached device. -/
def ctl_step (gpio_is_valid : Int → Bool) (dev : lm3533_device) (c : Ctl) (s : State) :
    State × List Op :=
  match c with
  | Ctl.set_level level => lm3533_lcd_backlight_set_level gpio_is_valid (some dev) level s
  | Ctl.suspend => lm3533_bl_suspend dev s
  | Ctl.resume => lm3533_bl_resume gpio_is_valid dev s
  | Ctl.store_level buf count => (lcd_backlight_store_level dev buf count s).1
  | Ctl.store_on_off buf count => (lcd_backlight_store_on_off gpio_is_valid dev buf count s).1

/-- The state after running the operations in order. -/
def ctl_exec (gpio_is_valid : Int → Bool) (dev : lm3533_device) : List Ctl → State → State
  | [], s => s
  | c :: cs, s => ctl_exec gpio_is_valid dev cs (ctl_step gpio_is_valid dev c s).1

/-- The operations of the amended range invariant: a set_level argument is not
negative, and a level written through the control surface is within
0 .. max_brightness (or the write is empty). -/
def ctl_in_range (dev : lm3533_device) : Ctl → Bool
  | Ctl.set_level level => decide (0 ≤ level)
  | Ctl.store_level buf count =>
    decide (count = 0 ∨ (0 ≤ int_of_ulong (simple_strtoul buf) ∧
      int_of_ulong (simple_strtoul buf) ≤ dev.max_brightness))
  | _ => true

/-- The activation sequence, in the order the specification lists it. -/
def activation_sequence : List (Nat × Int) :=
  [(0x10, 0x00), (0x14, 0x01), (0x1A, 0x00), (0x1F, 0x13), (0x27, 0x01), (0x2C, 0x0E)]

/-- The scenario configuration without a reset pin. -/
def no_pin_dev : lm3533_device := { scenario_dev with gpio := -1 }

/-- The scenario configuration with a calibration table truncated to 50 entries. -/
def short_table_dev : lm3533_device :=
  { scenario_dev with blmap := some (fun i => i), blmap_size := 50 }

/-- The recorded level and the saved level are both within 0 .. max_brightness. -/
def level_inv (dev : lm3533_device) (s : State) : Prop :=
  (0 ≤ s.cur_main_lcd_level ∧ s.cur_main_lcd_level ≤ dev.max_brightness) ∧
  (0 ≤ s.saved_main_lcd_level ∧ s.saved_main_lcd_level ≤ dev.max_brightness)

/-! ## Basic facts about the driver functions -/

theorem set_main_state (dev : lm3533_device) (level : Int) (s : State) :
    (lm3533_set_main_current_level dev level s).1 =
      { s with cur_main_lcd_level := level, props_brightness := level } := rfl

theorem backlight_on_state (v : Int → Bool) (dev : lm3533_device) (level : Int) (s : State) :
    (lm3533_backlight_on v dev level s).1 =
      { cur_main_lcd_level := level
        saved_main_lcd_level := s.saved_main_lcd_level
        backlight_status := BL_ON
        first_boot := false
        props_brightness := level } := by
  cases h : s.first_boot <;> simp [lm3533_backlight_on, lm3533_set_main_current_level, h]

theorem backlight_off_of_off (dev : lm3533_device) (s : State)
    (h : s.backlight_status = BL_OFF) : lm3533_backlight_off dev s = (s, []) := by
  simp [lm3533_backlight_off, h]

theorem backlight_off_state_of_on (dev : lm3533_device) (s : State)
    (h : s.backlight_status ≠ BL_OFF) :
    (lm3533_backlight_off dev s).1 =
      { cur_main_lcd_level := 0
        saved_main_lcd_level := s.cur_main_lcd_level
        backlight_status := BL_OFF
        first_boot := s.first_boot
        props_brightness := 0 } := by
  simp [lm3533_backlight_off, lm3533_set_main_current_level, h]

theorem backlight_off_status (dev : lm3533_device) (s : State) :
    (lm3533_backlight_off dev s).1.backlight_status = BL_OFF := by
  by_cases h : s.backlight_status = BL_OFF
  · simp [backlight_off_of_off dev s h, h]
  · simp [backlight_off_state_of_on dev s h]

theorem backlight_off_first_boot (dev : lm3533_device) (s : State) :
    (lm3533_backlight_off dev s).1.first_boot = s.first_boot := by
  by_cases h : s.backlight_status = BL_OFF
  · simp [backlight_off_of_off dev s h]
  · simp [backlight_off_state_of_on dev s h]

/-! ## Setting a level -/

/-- C1: for every state and every requested level above 0, on an attached
device whose maximum brightness is at least 1, after
lm3533_lcd_backlight_set_level the power flag is BL_ON and the recorded level
is the smaller of the requested level and the maximum brightness. -/
theorem set_level_positive_post (v : Int → Bool) (dev : lm3533_device) (s : State)
    (requested : Int) (hreq : 0 < requested) (hmax : 1 ≤ dev.max_brightness) :
    (lm3533_lcd_backlight_set_level v (some dev) requested s).1.backlight_status = BL_ON ∧
    (lm3533_lcd_backlight_set_level v (some dev) requested s).1.cur_main_lcd_level
      = min requested dev.max_brightness := by
  unfold lm3533_lcd_backlight_set_level
  by_cases hgt : requested > dev.max_brightness
  · have hne : dev.max_brightness ≠ 0 := by omega
    have hmin : min requested dev.max_brightness = dev.max_brightness :=
      min_eq_right (le_of_lt hgt)
    simp [hgt, hne, backlight_on_state, hmin]
  · have hne : requested ≠ 0 := by omega
    have hmin : min requested dev.max_brightness = requested :=
      min_eq_left (not_lt.mp hgt)
    simp [hgt, hne, backlight_on_state, hmin]

theorem set_level_positive_post_witness :
    (0 : Int) < 300 ∧ 1 ≤ scenario_dev.max_brightness ∧
    ((lm3533_lcd_backlight_set_level pins256 (some scenario_dev) 300
        (initial_state scenario_pdata)).1.backlight_status = BL_ON ∧
     (lm3533_lcd_backlight_set_level pins256 (some scenario_dev) 300
        (initial_state scenario_pdata)).1.cur_main_lcd_level
       = min 300 scenario_dev.max_brightness) :=
  ⟨by decide, by decide,
   set_level_positive_post pins256 scenario_dev (initial_state scenario_pdata) 300
     (by decide) (by decide)⟩

/-- C2: for every state and configuration, a request above the maximum
brightness gives exactly the result of a request for the maximum brightness:
the same new state and the same operations in the same order. -/
theorem set_level_above_max (v : Int → Bool) (dev : lm3533_device) (s : State)
    (requested : Int) (h : requested > dev.max_brightness) :
    lm3533_lcd_backlight_set_level v (some dev) requested s
      = lm3533_lcd_backlight_set_level v (some dev) dev.max_brightness s := by
  simp [lm3533_lcd_backlight_set_level, h]

theorem set_level_above_max_witness :
    (300 : Int) > scenario_dev.max_brightness ∧
    lm3533_lcd_backlight_set_level pins256 (some scenario_dev) 300
        (initial_state scenario_pdata)
      = lm3533_lcd_backlight_set_level pins256 (some scenario_dev)
          scenario_dev.max_brightness (initial_state scenario_pdata) :=
  ⟨by decide,
   set_level_above_max pins256 scenario_dev (initial_state scenario_pdata) 300 (by decide)⟩

/-- C3: on a device whose maximum brightness is not negative, two calls of
lm3533_lcd_backlight_set_level(0) in a row leave the power flag BL_OFF, and
the second call issues no operation and returns the state unchanged; the same
holds of any lm3533_backlight_off call made while the flag is BL_OFF. -/
theorem set_level_zero_idempotent (v : Int → Bool) (dev : lm3533_device) (s : State)
    (hmax : 0 ≤ dev.max_brightness) :
    (lm3533_lcd_backlight_set_level v (some dev) 0
        (lm3533_lcd_backlight_set_level v (some dev) 0 s).1).1.backlight_status = BL_OFF ∧
    lm3533_lcd_backlight_set_level v (some dev) 0
        (lm3533_lcd_backlight_set_level v (some dev) 0 s).1
      = ((lm3533_lcd_backlight_set_level v (some dev) 0 s).1, []) ∧
    (∀ t : State, t.backlight_status = BL_OFF → lm3533_backlight_off dev t = (t, [])) := by
  have h0 : ∀ t : State, lm3533_lcd_backlight_set_level v (some dev) 0 t
      = lm3533_backlight_off dev t := by
    intro t
    have : ¬ (0 > dev.max_brightness) := by omega
    simp [lm3533_lcd_backlight_set_level, this]
  have hoff := backlight_off_status dev s
  refine ⟨?_, ?_, fun t ht => backlight_off_of_off dev t ht⟩
  · rw [h0, h0]
    exact backlight_off_status dev _
  · rw [h0, h0]
    exact backlight_off_of_off dev _ hoff

theorem set_level_zero_idempotent_witness :
    (0 : Int) ≤ scenario_dev.max_brightness ∧
    ((lm3533_lcd_backlight_set_level pins256 (some scenario_dev) 0
        (lm3533_lcd_backlight_set_level pins256 (some scenario_dev) 0
          (initial_state scenario_pdata)).1).1.backlight_status = BL_OFF ∧
     lm3533_lcd_backlight_set_level pins256 (some scenario_dev) 0
        (lm3533_lcd_backlight_set_level pins256 (some scenario_dev) 0
          (initial_state scenario_pdata)).1
      = ((lm3533_lcd_backlight_set_level pins256 (some scenario_dev) 0
          (initial_state scenario_pdata)).1, []) ∧
     (∀ t : State, t.backlight_status = BL_OFF →
        lm3533_backlight_off scenario_dev t = (t, []))) :=
  ⟨by decide,
   set_level_zero_idempotent pins256 scenario_dev (initial_state scenario_pdata) (by decide)⟩

/-! ## Suspend and resume -/

/-- C4, as the code has it: for every state whose power flag is not BL_OFF,
lm3533_backlight_off followed at once by lm3533_bl_resume ends with the power
flag BL_ON and the recorded level equal to its value before the off call. -/
theorem off_then_resume_restores (v : Int → Bool) (dev : lm3533_device) (s : State)
    (hon : s.backlight_status ≠ BL_OFF) :
    (lm3533_bl_resume v dev (lm3533_backlight_off dev s).1).1.backlight_status = BL_ON ∧
    (lm3533_bl_resume v dev (lm3533_backlight_off dev s).1).1.cur_main_lcd_level
      = s.cur_main_lcd_level := by
  simp [lm3533_bl_resume, backlight_on_state, backlight_off_state_of_on dev s hon]

theorem off_then_resume_restores_witness :
    on_at_100.backlight_status ≠ BL_OFF ∧
    ((lm3533_bl_resume pins256 scenario_dev
        (lm3533_backlight_off scenario_dev on_at_100).1).1.backlight_status = BL_ON ∧
     (lm3533_bl_resume pins256 scenario_dev
        (lm3533_backlight_off scenario_dev on_at_100).1).1.cur_main_lcd_level
        = on_at_100.cur_main_lcd_level) :=
  ⟨by decide, off_then_resume_restores pins256 scenario_dev on_at_100 (by decide)⟩

/-- C4 fails when the device is already off: from the state reached by
set_level(100), set_level(0) the recorded level is 0 before the off call and
100 after the resume. -/
theorem off_then_resume_from_off_changes_level :
    (run pins256 scenario_dev [Cmd.set_level 100, Cmd.set_level 0]
        (initial_state scenario_pdata)).map (fun r => r.1)
      = [on_at_100, off_after_100] ∧
    off_after_100.cur_main_lcd_level = 0 ∧
    (lm3533_bl_resume pins256 scenario_dev
        (lm3533_backlight_off scenario_dev off_after_100).1).1.cur_main_lcd_level = 100 ∧
    ¬ ((lm3533_bl_resume pins256 scenario_dev
        (lm3533_backlight_off scenario_dev off_after_100).1).1.cur_main_lcd_level
        = off_after_100.cur_main_lcd_level) := by
  decide

/-! ## The Level Mapper -/

theorem cal_value_eq_spec_clamp (dev : lm3533_device) (level : Int) (hlevel : 0 < level) :
    cal_value dev level = spec_clamp dev.min_brightness dev.max_brightness level := by
  unfold cal_value spec_clamp
  by_cases h1 : level ≤ dev.min_brightness
  · simp [h1, hlevel]
  · have h2 : dev.min_brightness < level := not_le.mp h1
    by_cases h3 : level ≤ dev.max_brightness
    · simp [h1, h2, h3]
    · have h4 : level > dev.max_brightness := not_le.mp h3
      simp [h1, h3, h4]

theorem spec_clamp_range (lo hi level : Int) (h0 : 0 ≤ lo) (h1 : lo ≤ hi) (h2 : hi ≤ 255) :
    0 ≤ spec_clamp lo hi level ∧ spec_clamp lo hi level ≤ 255 := by
  unfold spec_clamp
  split_ifs <;> constructor <;> omega

/-- C5: for every configuration and every level with 0 < level <= min_brightness,
lm3533_set_main_current_level issues exactly the operations it issues for
level = min_brightness: the same byte to register 0x40, or no write in both. -/
theorem level_below_min_same_write (dev : lm3533_device) (s t : State) (level : Int)
    (hpos : 0 < level) (hle : level ≤ dev.min_brightness) :
    (lm3533_set_main_current_level dev level s).2
      = (lm3533_set_main_current_level dev dev.min_brightness t).2 := by
  have hminpos : 0 < dev.min_brightness := lt_of_lt_of_le hpos hle
  have hc1 : cal_value dev level = dev.min_brightness := by
    simp [cal_value, hpos, hle]
  have hc2 : cal_value dev dev.min_brightness = dev.min_brightness := by
    simp [cal_value, hminpos]
  have hn1 : level ≠ 0 := by omega
  have hn2 : dev.min_brightness ≠ 0 := by omega
  simp [lm3533_set_main_current_level, hc1, hc2, hn1, hn2]

theorem level_below_min_same_write_witness :
    (0 : Int) < 5 ∧ (5 : Int) ≤ scenario_dev.min_brightness ∧
    (lm3533_set_main_current_level scenario_dev 5 (initial_state scenario_pdata)).2
      = (lm3533_set_main_current_level scenario_dev scenario_dev.min_brightness
          (initial_state scenario_pdata)).2 :=
  ⟨by decide, by decide,
   level_below_min_same_write scenario_dev (initial_state scenario_pdata)
     (initial_state scenario_pdata) 5 (by decide) (by decide)⟩

/-- C6: for every level above 0 and bounds 0 <= min_brightness <= max_brightness
<= 255, with c the clamp of the specification: without a calibration table
lm3533_set_main_current_level writes the one register (0x40, c); with a table
whose size exceeds c it writes the one register (0x40, table[c]), the entry
taken as an unsigned byte; and with the identity table of size 256 it issues
the operations of the same device without a table. -/
theorem level_mapper_reference (dev : lm3533_device) (s : State) (level : Int)
    (hlevel : 0 < level) (h0 : 0 ≤ dev.min_brightness)
    (h1 : dev.min_brightness ≤ dev.max_brightness) (h2 : dev.max_brightness ≤ 255) :
    (dev.blmap = none →
      (lm3533_set_main_current_level dev level s).2
        = [Op.write_reg 0x40 (spec_clamp dev.min_brightness dev.max_brightness level),
           Op.mdelay 1]) ∧
    (∀ table : Int → Int, dev.blmap = some table →
      spec_clamp dev.min_brightness dev.max_brightness level < dev.blmap_size →
      (lm3533_set_main_current_level dev level s).2
        = [Op.write_reg 0x40
             (table (spec_clamp dev.min_brightness dev.max_brightness level) % 256),
           Op.mdelay 1]) ∧
    (dev.blmap = some (fun i => i) → dev.blmap_size = 256 →
      (lm3533_set_main_current_level dev level s).2
        = (lm3533_set_main_current_level { dev with blmap := none } level s).2) := by
  have hne : level ≠ 0 := by omega
  have hc := cal_value_eq_spec_clamp dev level hlevel
  obtain ⟨hlo, hhi⟩ := spec_clamp_range dev.min_brightness dev.max_brightness level h0 h1 h2
  have hmod : spec_clamp dev.min_brightness dev.max_brightness level % 256
      = spec_clamp dev.min_brightness dev.max_brightness level := by omega
  refine ⟨?_, ?_, ?_⟩
  · intro hb
    simp [lm3533_set_main_current_level, lm3533_write_reg, hne, hb, hc, hmod]
  · intro table hb hsize
    simp [lm3533_set_main_current_level, lm3533_write_reg, hne, hb, hc, hsize]
  · intro hb hsize
    have hlt : spec_clamp dev.min_brightness dev.max_brightness level < 256 := by omega
    simp [lm3533_set_main_current_level, lm3533_write_reg, hne, hb, hc, hsize, hlt]
    rw [cal_value_eq_spec_clamp _ level hlevel]

theorem level_mapper_reference_witness :
    (0 : Int) < 100 ∧ 0 ≤ (identity_table_dev 10 255).min_brightness ∧
    (identity_table_dev 10 255).min_brightness ≤ (identity_table_dev 10 255).max_brightness ∧
    (identity_table_dev 10 255).max_brightness ≤ 255 ∧
    (((identity_table_dev 10 255).blmap = none →
      (lm3533_set_main_current_level (identity_table_dev 10 255) 100 static_init).2
        = [Op.write_reg 0x40 (spec_clamp (identity_table_dev 10 255).min_brightness
             (identity_table_dev 10 255).max_brightness 100),
           Op.mdelay 1]) ∧
    (∀ table : Int → Int, (identity_table_dev 10 255).blmap = some table →
      spec_clamp (identity_table_dev 10 255).min_brightness
          (identity_table_dev 10 255).max_brightness 100
        < (identity_table_dev 10 255).blmap_size →
      (lm3533_set_main_current_level (identity_table_dev 10 255) 100 static_init).2
        = [Op.write_reg 0x40
             (table (spec_clamp (identity_table_dev 10 255).min_brightness
               (identity_table_dev 10 255).max_brightness 100) % 256),
           Op.mdelay 1]) ∧
    ((identity_table_dev 10 255).blmap = some (fun i => i) →
      (identity_table_dev 10 255).blmap_size = 256 →
      (lm3533_set_main_current_level (identity_table_dev 10 255) 100 static_init).2
        = (lm3533_set_main_current_level
            { identity_table_dev 10 255 with blmap := none } 100 static_init).2)) :=
  ⟨by decide, by decide, by decide, by decide,
   level_mapper_reference (identity_table_dev 10 255) static_init 100
     (by decide) (by decide) (by decide) (by decide)⟩

/-! ## The one-shot latch -/

theorem writes_to_append (reg : Nat) (a b : List Op) :
    writes_to reg (a ++ b) = writes_to reg a ++ writes_to reg b := by
  induction a with
  | nil => rfl
  | cons x xs ih =>
    cases x <;> simp [writes_to, ih]
    split_ifs <;> simp

theorem writes17_set_main (dev : lm3533_device) (level : Int) (s : State) :
    writes_to 0x17 (lm3533_set_main_current_level dev level s).2 = [] := by
  unfold lm3533_set_main_current_level
  by_cases h : level = 0
  · simp [h, lm3533_write_reg, writes_to]
  · cases hb : dev.blmap with
    | none => simp [h, lm3533_write_reg, writes_to]
    | some m =>
      by_cases hs : cal_value dev level < dev.blmap_size
      · simp [h, hs, lm3533_write_reg, writes_to]
      · simp [h, hs, writes_to]

theorem writes17_hw_reset (v : Int → Bool) (dev : lm3533_device) :
    writes_to 0x17 (lm3533_hw_reset v dev) = [] := by
  unfold lm3533_hw_reset
  split_ifs <;> simp [writes_to]

theorem writes17_backlight_on (v : Int → Bool) (dev : lm3533_device) (level : Int)
    (s : State) :
    writes_to 0x17 (lm3533_backlight_on v dev level s).2
      = if s.first_boot then [dev.max_current % 256] else [] := by
  unfold lm3533_backlight_on
  by_cases hs : s.backlight_status = BL_OFF <;> cases hf : s.first_boot <;>
    simp [hs, hf, writes_to_append, writes17_set_main, writes17_hw_reset,
      lm3533_write_reg, writes_to]

theorem writes17_backlight_off (dev : lm3533_device) (s : State) :
    writes_to 0x17 (lm3533_backlight_off dev s).2 = [] := by
  unfold lm3533_backlight_off
  by_cases hs : s.backlight_status = BL_OFF
  · simp [hs, writes_to]
  · simp [hs, writes_to_append, writes17_set_main, writes_to]

/-- One call either leaves `first_boot` alone and does not write register 0x17,
or clears `first_boot`, writing 0x17 only when `first_boot` was set. -/
theorem step_latch (v : Int → Bool) (dev : lm3533_device) (c : Cmd) (s : State) :
    ((step v dev c s).1.first_boot = s.first_boot ∧ writes_to 0x17 (step v dev c s).2 = []) ∨
    ((step v dev c s).1.first_boot = false ∧
      (s.first_boot = false → writes_to 0x17 (step v dev c s).2 = [])) := by
  have hon : ∀ level : Int,
      (lm3533_backlight_on v dev level s).1.first_boot = false ∧
      (s.first_boot = false → writes_to 0x17 (lm3533_backlight_on v dev level s).2 = []) := by
    intro level
    refine ⟨by simp [backlight_on_state], fun hf => ?_⟩
    simp [writes17_backlight_on, hf]
  have hoff : (lm3533_backlight_off dev s).1.first_boot = s.first_boot ∧
      writes_to 0x17 (lm3533_backlight_off dev s).2 = [] :=
    ⟨backlight_off_first_boot dev s, writes17_backlight_off dev s⟩
  cases c with
  | set_level level =>
    simp only [step, lm3533_lcd_backlight_set_level]
    split_ifs
    all_goals first | exact Or.inr (hon _) | exact Or.inl hoff
  | suspend => exact Or.inl hoff
  | resume => exact Or.inr (hon _)

theorem run_latch (v : Int → Bool) (dev : lm3533_device) (cmds : List Cmd) :
    ∀ s : State,
      (rises (latch_history v dev cmds s) ≤ 1 ∧ falls (latch_history v dev cmds s) = 0 ∧
        current_limit_calls v dev cmds s ≤ 1) ∧
      (s.first_boot = false →
        rises (latch_history v dev cmds s) = 0 ∧ current_limit_calls v dev cmds s = 0) := by
  induction cmds with
  | nil =>
    intro s
    simp [latch_history, current_limit_calls, run, rises, falls]
  | cons c cs ih =>
    intro s
    obtain ⟨⟨ih1, ih2, ih3⟩, ih4⟩ := ih (step v dev c s).1
    have hr : rises (latch_history v dev (c :: cs) s)
        = (if activated_once s = false ∧ activated_once (step v dev c s).1 = true then 1 else 0)
          + rises (latch_history v dev cs (step v dev c s).1) := by
      simp [latch_history, run, rises]
    have hf : falls (latch_history v dev (c :: cs) s)
        = (if activated_once s = true ∧ activated_once (step v dev c s).1 = false then 1 else 0)
          + falls (latch_history v dev cs (step v dev c s).1) := by
      simp [latch_history, run, falls]
    have hc : current_limit_calls v dev (c :: cs) s
        = (if (writes_to 0x17 (step v dev c s).2).isEmpty then 0 else 1)
          + current_limit_calls v dev cs (step v dev c s).1 := by
      simp only [current_limit_calls, run, List.filter_cons]
      split_ifs <;> simp_all
      all_goals omega
    rw [hr, hf, hc]
    rcases step_latch v dev c s with ⟨h1, h2⟩ | ⟨h1, h2⟩
    · cases hs : s.first_boot
      · have hfb : (step v dev c s).1.first_boot = false := by rw [h1, hs]
        obtain ⟨i1, i2⟩ := ih4 hfb
        simp [activated_once, hs, hfb, h2, i1, i2, ih2]
      · have hfb : (step v dev c s).1.first_boot = true := by rw [h1, hs]
        simp [activated_once, hs, hfb, h2, ih1, ih2, ih3]
    · obtain ⟨i1, i2⟩ := ih4 h1
      cases hs : s.first_boot
      · simp [activated_once, hs, h1, h2 hs, i1, i2, ih2]
      · simp only [activated_once, hs, h1, i1, i2, ih2]
        refine ⟨⟨by simp, by simp, ?_⟩, by simp⟩
        split_ifs <;> simp

/-- C7: over every finite sequence of set_level, suspend and resume calls, from
every state and so from the initial one, the latch activated_once goes from
false to true at most once and never from true to false, and at most one call
of the sequence writes the current-limit register 0x17. -/
theorem latch_fires_at_most_once (v : Int → Bool) (dev : lm3533_device) (cmds : List Cmd)
    (s : State) :
    rises (latch_history v dev cmds s) ≤ 1 ∧
    falls (latch_history v dev cmds s) = 0 ∧
    current_limit_calls v dev cmds s ≤ 1 :=
  (run_latch v dev cmds s).1

/-! ## The concrete scenario -/

/-- C8, as the code has it: on the configuration min 10, max 255, default 120,
no calibration table, from every state: set_level(5) writes byte 10 to the
brightness register and leaves the recorded level 5 and the power flag BL_ON;
set_level(300) writes byte 255 and leaves the level 255; set_level(0) leaves
the power flag BL_OFF; resume writes byte 255 and leaves the power flag BL_ON
and the level 255. -/
theorem scenario_outcome (v : Int → Bool) (s : State) :
    (scenario_run v s).map
        (fun r => (writes_to 0x40 r.2, r.1.cur_main_lcd_level, r.1.backlight_status))
      = [([10], 5, BL_ON), ([255], 255, BL_ON), ([], 0, BL_OFF), ([255], 255, BL_ON)] := by
  by_cases hs : s.backlight_status = 0 <;> cases hf : s.first_boot <;>
    cases hv : v 24 <;>
    simp [scenario_run, run, step, lm3533_lcd_backlight_set_level, lm3533_bl_resume,
      lm3533_backlight_on, lm3533_backlight_off, lm3533_set_main_current_level,
      lm3533_hw_reset, lm3533_write_reg, cal_value, writes_to, scenario_dev,
      scenario_pdata, lm3533_probe, BL_ON, BL_OFF, hs, hf, hv]

/-- C8 fails at its first step: after set_level(5) from the initial state the
recorded level is 5, the requested level, not the minimum brightness 10. -/
theorem scenario_level_is_requested :
    (lm3533_lcd_backlight_set_level pins256 (some scenario_dev) 5
        (initial_state scenario_pdata)).1.cur_main_lcd_level = 5 ∧
    ¬ ((lm3533_lcd_backlight_set_level pins256 (some scenario_dev) 5
        (initial_state scenario_pdata)).1.cur_main_lcd_level = 10) := by
  decide

/-! ## The initial state -/

/-- C9, as the code has it: before any operation has run the power flag is
BL_ON, the recorded level and the saved level are 0, first_boot is true (the
latch activated_once is false), and the default brightness is the value of the
brightness property of the registered backlight device. -/
theorem initial_state_values (pdata : backlight_platform_data) :
    (initial_state pdata).backlight_status = BL_ON ∧
    (initial_state pdata).cur_main_lcd_level = 0 ∧
    (initial_state pdata).saved_main_lcd_level = 0 ∧
    (initial_state pdata).first_boot = true ∧
    activated_once (initial_state pdata) = false ∧
    (initial_state pdata).props_brightness = pdata.default_brightness := by
  simp [initial_state, lm3533_probe, static_init, activated_once]

/-- C9 fails on the scenario configuration: the initial power flag is not
BL_OFF and the initial recorded level is not the default brightness 120. -/
theorem initial_state_is_on_level_zero :
    (initial_state scenario_pdata).backlight_status ≠ BL_OFF ∧
    (initial_state scenario_pdata).cur_main_lcd_level ≠ scenario_pdata.default_brightness := by
  decide

/-! ## Resume with no level saved -/

/-- C10 at the state reached from the initial state by one suspend (power flag
BL_OFF, saved level 0): lm3533_bl_resume runs the activation sequence, writes
the current-limit register, disables the control bank with (0x27, 0), drives
the reset pin, and leaves the power flag BL_ON. -/
theorem resume_never_set_activates :
    (lm3533_bl_suspend scenario_dev (initial_state scenario_pdata)).1 = off_never_set ∧
    off_never_set.backlight_status = BL_OFF ∧
    off_never_set.saved_main_lcd_level = 0 ∧
    reg_writes (lm3533_bl_resume pins256 scenario_dev off_never_set).2
      = [(0x10, 0), (0x14, 1), (0x1A, 0), (0x1F, 0x13), (0x27, 1), (0x2C, 0xE),
         (0x17, 0x17), (0x27, 0)] ∧
    gpio_ops (lm3533_bl_resume pins256 scenario_dev off_never_set).2
      = [Op.gpio_direction_output 24 1, Op.gpio_set_value_cansleep 24 1] ∧
    (lm3533_bl_resume pins256 scenario_dev off_never_set).1.backlight_status = BL_ON := by
  decide

/-! ## The range of the recorded level -/

theorem backlight_on_inv (v : Int → Bool) (dev : lm3533_device) (level : Int) (s : State)
    (h0 : 0 ≤ level) (h1 : level ≤ dev.max_brightness) (hs : level_inv dev s) :
    level_inv dev (lm3533_backlight_on v dev level s).1 := by
  rw [backlight_on_state]
  exact ⟨⟨h0, h1⟩, hs.2⟩

theorem backlight_off_inv (dev : lm3533_device) (s : State) (hmax : 0 ≤ dev.max_brightness)
    (hs : level_inv dev s) : level_inv dev (lm3533_backlight_off dev s).1 := by
  by_cases h : s.backlight_status = BL_OFF
  · rw [backlight_off_of_off dev s h]
    exact hs
  · rw [backlight_off_state_of_on dev s h]
    exact ⟨⟨le_refl 0, hmax⟩, hs.1⟩

theorem ctl_step_inv (v : Int → Bool) (dev : lm3533_device) (c : Ctl) (s : State)
    (hmax : 0 ≤ dev.max_brightness) (hc : ctl_in_range dev c = true) (hs : level_inv dev s) :
    level_inv dev (ctl_step v dev c s).1 := by
  have hres : level_inv dev (lm3533_bl_resume v dev s).1 :=
    backlight_on_inv v dev _ s hs.2.1 hs.2.2 hs
  have hsus : level_inv dev (lm3533_bl_suspend dev s).1 := backlight_off_inv dev s hmax hs
  cases c with
  | set_level level =>
    have h0 : 0 ≤ level := by simpa [ctl_in_range] using hc
    simp only [ctl_step, lm3533_lcd_backlight_set_level]
    split_ifs
    all_goals first
      | exact backlight_off_inv dev s hmax hs
      | exact backlight_on_inv v dev _ s hmax (le_refl _) hs
      | exact backlight_on_inv v dev _ s h0 (by omega) hs
  | suspend => exact hsus
  | resume => exact hres
  | store_level buf count =>
    simp only [ctl_step, lcd_backlight_store_level]
    by_cases hcount : count = 0
    · simpa [hcount] using hs
    · have hr : 0 ≤ int_of_ulong (simple_strtoul buf) ∧
          int_of_ulong (simple_strtoul buf) ≤ dev.max_brightness := by
        simpa [ctl_in_range, hcount] using hc
      simp only [hcount, if_false, set_main_state]
      exact ⟨hr, hs.2⟩
  | store_on_off buf count =>
    simp only [ctl_step, lcd_backlight_store_on_off]
    split_ifs
    all_goals first | exact hs | exact hres | exact hsus

theorem ctl_exec_inv (v : Int → Bool) (dev : lm3533_device) (hmax : 0 ≤ dev.max_brightness)
    (cmds : List Ctl) :
    ∀ s : State, (∀ c ∈ cmds, ctl_in_range dev c = true) → level_inv dev s →
      level_inv dev (ctl_exec v dev cmds s) := by
  induction cmds with
  | nil => intro s _ hs; exact hs
  | cons c cs ih =>
    intro s hc hs
    exact ih _ (fun d hd => hc d (List.mem_cons_of_mem c hd))
      (ctl_step_inv v dev c s hmax (hc c (List.mem_cons_self c cs)) hs)

/-- C11, as the code has it: on a device whose maximum brightness is not
negative, after every finite sequence of set_level calls with a non-negative
argument, suspend and resume calls, on_off writes, and level writes whose
value is within 0 .. max_brightness, run from the initial state, the recorded
level satisfies 0 <= cur_main_lcd_level <= max_brightness. -/
theorem level_stays_in_range (v : Int → Bool) (dev : lm3533_device)
    (pdata : backlight_platform_data) (cmds : List Ctl)
    (hmax : 0 ≤ dev.max_brightness) (hcmds : ∀ c ∈ cmds, ctl_in_range dev c = true) :
    0 ≤ (ctl_exec v dev cmds (initial_state pdata)).cur_main_lcd_level ∧
    (ctl_exec v dev cmds (initial_state pdata)).cur_main_lcd_level ≤ dev.max_brightness := by
  have hinit : level_inv dev (initial_state pdata) := by
    simp [level_inv, initial_state, lm3533_probe, static_init, hmax]
  exact (ctl_exec_inv v dev hmax cmds (initial_state pdata) hcmds hinit).1

theorem level_stays_in_range_witness :
    (0 : Int) ≤ scenario_dev.max_brightness ∧
    (∀ c ∈ [Ctl.set_level 300, Ctl.store_level "200" 3, Ctl.suspend, Ctl.store_on_off "1" 1],
      ctl_in_range scenario_dev c = true) ∧
    (0 ≤ (ctl_exec pins256 scenario_dev
        [Ctl.set_level 300, Ctl.store_level "200" 3, Ctl.suspend, Ctl.store_on_off "1" 1]
        (initial_state scenario_pdata)).cur_main_lcd_level ∧
     (ctl_exec pins256 scenario_dev
        [Ctl.set_level 300, Ctl.store_level "200" 3, Ctl.suspend, Ctl.store_on_off "1" 1]
        (initial_state scenario_pdata)).cur_main_lcd_level ≤ scenario_dev.max_brightness) :=
  ⟨by decide, by decide,
   level_stays_in_range pins256 scenario_dev scenario_pdata
     [Ctl.set_level 300, Ctl.store_level "200" 3, Ctl.suspend, Ctl.store_on_off "1" 1]
     (by decide) (by decide)⟩

/-- C11 fails in both directions on the scenario configuration, from the
initial state: set_level(-5) leaves the recorded level -5, below 0, and
writing "300" to the level endpoint leaves it 300, above max_brightness 255. -/
theorem level_leaves_range :
    (ctl_exec pins256 scenario_dev [Ctl.set_level (-5)]
        (initial_state scenario_pdata)).cur_main_lcd_level = -5 ∧
    (ctl_exec pins256 scenario_dev [Ctl.store_level "300" 3]
        (initial_state scenario_pdata)).cur_main_lcd_level = 300 ∧
    scenario_dev.max_brightness = 255 ∧
    ¬ (0 ≤ (ctl_exec pins256 scenario_dev [Ctl.set_level (-5)]
        (initial_state scenario_pdata)).cur_main_lcd_level) ∧
    ¬ ((ctl_exec pins256 scenario_dev [Ctl.store_level "300" 3]
        (initial_state scenario_pdata)).cur_main_lcd_level ≤ scenario_dev.max_brightness) := by
  decide

/-! ## The level across Off -/

/-- C12, as the code has it: for every state whose power flag is not BL_OFF,
with recorded level L, after lm3533_backlight_off the level L is kept in
saved_main_lcd_level, while cur_main_lcd_level, the value printed by
lcd_backlight_show_level, is 0. -/
theorem off_saves_level_and_records_zero (dev : lm3533_device) (s : State) (L : Int)
    (hon : s.backlight_status ≠ BL_OFF) (hL : s.cur_main_lcd_level = L) :
    (lm3533_backlight_off dev s).1.saved_main_lcd_level = L ∧
    (lm3533_backlight_off dev s).1.cur_main_lcd_level = 0 ∧
    lcd_backlight_show_level (lm3533_backlight_off dev s).1
      = "LCD Backlight Level is : " ++ toString (0 : Int) ++ "\n" := by
  simp [backlight_off_state_of_on dev s hon, lcd_backlight_show_level, hL]

theorem off_saves_level_and_records_zero_witness :
    on_at_100.backlight_status ≠ BL_OFF ∧ on_at_100.cur_main_lcd_level = 100 ∧
    ((lm3533_backlight_off scenario_dev on_at_100).1.saved_main_lcd_level = 100 ∧
     (lm3533_backlight_off scenario_dev on_at_100).1.cur_main_lcd_level = 0 ∧
     lcd_backlight_show_level (lm3533_backlight_off scenario_dev on_at_100).1
       = "LCD Backlight Level is : " ++ toString (0 : Int) ++ "\n") :=
  ⟨by decide, by decide,
   off_saves_level_and_records_zero scenario_dev on_at_100 100 (by decide) (by decide)⟩

/-- C12 fails at the state On with level 100: after lm3533_backlight_off the
recorded level is 0, not 100, and lcd_backlight_show_level prints 0. -/
theorem off_does_not_retain_level :
    on_at_100.backlight_status = BL_ON ∧ on_at_100.cur_main_lcd_level = 100 ∧
    (lm3533_backlight_off scenario_dev on_at_100).1.cur_main_lcd_level = 0 ∧
    ¬ ((lm3533_backlight_off scenario_dev on_at_100).1.cur_main_lcd_level = 100) ∧
    lcd_backlight_show_level (lm3533_backlight_off scenario_dev on_at_100).1
      = "LCD Backlight Level is : 0\n" := by
  decide

/-! ## The brightness subsystem hook -/

/-- C13: for every requested brightness (the brightness property on entry) and
every value of the state flags, bl_set_intensity calls set_level with 0 when
BL_CORE_FBBLANK or BL_CORE_SUSPENDED is set, else with default_brightness when
the requested brightness is 0, else with the requested brightness unchanged,
and it returns 0. -/
theorem hook_passes_spec_level (v : Int → Bool) (dev : lm3533_device) (props_state : Nat)
    (s : State) :
    bl_set_intensity v dev props_state s
      = (lm3533_lcd_backlight_set_level v (some dev)
          (spec_hook_level dev.default_brightness
            (decide (props_state &&& BL_CORE_FBBLANK ≠ 0))
            (decide (props_state &&& BL_CORE_SUSPENDED ≠ 0))
            s.props_brightness) s, 0) := by
  unfold bl_set_intensity spec_hook_level
  by_cases hb : props_state &&& BL_CORE_FBBLANK ≠ 0 <;>
    by_cases hsus : props_state &&& BL_CORE_SUSPENDED ≠ 0 <;>
    by_cases h0 : s.props_brightness = 0 <;>
    simp [hb, hsus, h0]

/-! ## The level endpoint of the control surface -/

/-- C14, as the code has it: a non-empty write of a decimal value n to the level
endpoint has the effect of lm3533_set_main_current_level(n), not of
set_level(n): the same operations and the recorded level n, with
backlight_status, saved_main_lcd_level and first_boot unchanged; it returns
the byte count. -/
theorem store_level_is_raw_write (dev : lm3533_device) (buf : String) (count : Nat)
    (s : State) (hcount : count ≠ 0) :
    (lcd_backlight_store_level dev buf count s).1
      = lm3533_set_main_current_level dev (int_of_ulong (simple_strtoul buf)) s ∧
    (lcd_backlight_store_level dev buf count s).2 = (count : Int) ∧
    (lcd_backlight_store_level dev buf count s).1.1.cur_main_lcd_level
      = int_of_ulong (simple_strtoul buf) ∧
    (lcd_backlight_store_level dev buf count s).1.1.backlight_status = s.backlight_status ∧
    (lcd_backlight_store_level dev buf count s).1.1.saved_main_lcd_level
      = s.saved_main_lcd_level ∧
    (lcd_backlight_store_level dev buf count s).1.1.first_boot = s.first_boot := by
  simp [lcd_backlight_store_level, hcount, lm3533_set_main_current_level]

theorem store_level_is_raw_write_witness :
    (2 : Nat) ≠ 0 ∧
    ((lcd_backlight_store_level scenario_dev "50" 2 off_after_100).1
      = lm3533_set_main_current_level scenario_dev (int_of_ulong (simple_strtoul "50"))
          off_after_100 ∧
    (lcd_backlight_store_level scenario_dev "50" 2 off_after_100).2 = ((2 : Nat) : Int) ∧
    (lcd_backlight_store_level scenario_dev "50" 2 off_after_100).1.1.cur_main_lcd_level
      = int_of_ulong (simple_strtoul "50") ∧
    (lcd_backlight_store_level scenario_dev "50" 2 off_after_100).1.1.backlight_status
      = off_after_100.backlight_status ∧
    (lcd_backlight_store_level scenario_dev "50" 2 off_after_100).1.1.saved_main_lcd_level
      = off_after_100.saved_main_lcd_level ∧
    (lcd_backlight_store_level scenario_dev "50" 2 off_after_100).1.1.first_boot
      = off_after_100.first_boot) :=
  ⟨by decide, store_level_is_raw_write scenario_dev "50" 2 off_after_100 (by decide)⟩

/-- C14 fails at the Off state with saved level 100: writing "50" to the level
endpoint writes only the brightness register and leaves the power flag
BL_OFF, while set_level(50) runs the activation sequence and sets BL_ON. -/
theorem store_level_differs_from_set_level :
    int_of_ulong (simple_strtoul "50") = 50 ∧
    (lcd_backlight_store_level scenario_dev "50" 2 off_after_100).1.1.backlight_status
      = BL_OFF ∧
    (lm3533_lcd_backlight_set_level pins256 (some scenario_dev) 50
        off_after_100).1.backlight_status = BL_ON ∧
    reg_writes (lcd_backlight_store_level scenario_dev "50" 2 off_after_100).1.2
      = [(0x40, 50)] ∧
    reg_writes (lm3533_lcd_backlight_set_level pins256 (some scenario_dev) 50 off_after_100).2
      = [(0x10, 0), (0x14, 1), (0x1A, 0), (0x1F, 0x13), (0x27, 1), (0x2C, 0xE), (0x40, 50)] ∧
    ¬ ((lcd_backlight_store_level scenario_dev "50" 2 off_after_100).1
        = lm3533_lcd_backlight_set_level pins256 (some scenario_dev) 50 off_after_100) := by
  decide

/-! ## The reset pin -/

/-- C15 at a configuration without a valid pin (gpio = -1), device On at level
100: lm3533_bl_suspend and set_level(0) both call gpio_tlmm_config and
gpio_direction_output on the pin, while lm3533_bl_resume, whose pin
operations are guarded by gpio_is_valid, issues none. -/
theorem off_drives_invalid_pin :
    pins256 no_pin_dev.gpio = false ∧
    gpio_ops (lm3533_bl_suspend no_pin_dev on_at_100).2
      = [Op.gpio_tlmm_config (-1), Op.gpio_direction_output (-1) 0] ∧
    gpio_ops (lm3533_lcd_backlight_set_level pins256 (some no_pin_dev) 0 on_at_100).2
      = [Op.gpio_tlmm_config (-1), Op.gpio_direction_output (-1) 0] ∧
    gpio_ops (lm3533_bl_resume pins256 no_pin_dev off_after_100).2 = [] := by
  decide

/-! ## The activation sequence -/

theorem reg_writes_append (a b : List Op) :
    reg_writes (a ++ b) = reg_writes a ++ reg_writes b := by
  induction a with
  | nil => rfl
  | cons x xs ih => cases x <;> simp [reg_writes, ih]

theorem reg_writes_hw_reset (v : Int → Bool) (dev : lm3533_device) :
    reg_writes (lm3533_hw_reset v dev) = [] := by
  unfold lm3533_hw_reset
  split_ifs <;> simp [reg_writes]

theorem set_main_ops_state_free (dev : lm3533_device) (level : Int) (s t : State) :
    (lm3533_set_main_current_level dev level s).2
      = (lm3533_set_main_current_level dev level t).2 := rfl

theorem reg_writes_set_main_table (dev : lm3533_device) (table : Int → Int) (level : Int)
    (s : State) (hb : dev.blmap = some table) (hl : level ≠ 0) :
    reg_writes (lm3533_set_main_current_level dev level s).2
      = if cal_value dev level < dev.blmap_size
        then [(0x40, table (cal_value dev level) % 256)] else [] := by
  by_cases hs : cal_value dev level < dev.blmap_size <;>
    simp [lm3533_set_main_current_level, lm3533_write_reg, reg_writes, hb, hl, hs]

theorem reg_writes_set_main_no_table (dev : lm3533_device) (level : Int) (s : State)
    (hb : dev.blmap = none) (hl : level ≠ 0) :
    reg_writes (lm3533_set_main_current_level dev level s).2
      = [(0x40, cal_value dev level % 256)] := by
  simp [lm3533_set_main_current_level, lm3533_write_reg, reg_writes, hb, hl]

theorem reg_writes_set_main_brightness (dev : lm3533_device) (level : Int) (s : State)
    (hl : level ≠ 0) :
    ∀ rw ∈ reg_writes (lm3533_set_main_current_level dev level s).2, rw.1 = 0x40 := by
  cases hb : dev.blmap with
  | none =>
    rw [reg_writes_set_main_no_table dev level s hb hl]
    simp
  | some table =>
    rw [reg_writes_set_main_table dev table level s hb hl]
    split_ifs <;> simp

theorem reg_writes_backlight_on (v : Int → Bool) (dev : lm3533_device) (level : Int)
    (s : State) :
    reg_writes (lm3533_backlight_on v dev level s).2
      = (if s.backlight_status = BL_OFF then activation_sequence else [])
        ++ ((if s.first_boot then [(0x17, dev.max_current % 256)] else [])
            ++ reg_writes (lm3533_set_main_current_level dev level s).2) := by
  unfold lm3533_backlight_on
  by_cases hs : s.backlight_status = BL_OFF <;> cases hf : s.first_boot <;>
    simp [hs, hf, reg_writes_append, reg_writes_hw_reset, lm3533_write_reg, reg_writes,
      activation_sequence, set_main_ops_state_free dev level _ s]

/-- C17: for every level above 0, the register writes of lm3533_backlight_on are
the six initialisation writes (0x10,0x00), (0x14,0x01), (0x1A,0x00),
(0x1F,0x13), (0x27,0x01), (0x2C,0x0E), once and in this order, exactly when
backlight_status is BL_OFF on entry, followed by writes that go to registers
0x17 and 0x40 only, the brightness write among them; when the device is not
Off every write goes to 0x17 or 0x40, so none of the six registers is written. -/
theorem activation_sequence_iff_off (v : Int → Bool) (dev : lm3533_device) (level : Int)
    (s : State) (hlevel : 0 < level) :
    reg_writes (lm3533_backlight_on v dev level s).2
      = (if s.backlight_status = BL_OFF then activation_sequence else [])
        ++ ((if s.first_boot then [(0x17, dev.max_current % 256)] else [])
            ++ reg_writes (lm3533_set_main_current_level dev level s).2) ∧
    (∀ rw ∈ (if s.first_boot then [((0x17 : Nat), dev.max_current % 256)] else [])
            ++ reg_writes (lm3533_set_main_current_level dev level s).2,
        rw.1 = 0x17 ∨ rw.1 = 0x40) ∧
    (s.backlight_status ≠ BL_OFF →
      ∀ rw ∈ reg_writes (lm3533_backlight_on v dev level s).2,
        rw.1 = 0x17 ∨ rw.1 = 0x40) := by
  have hl : level ≠ 0 := by omega
  have hb := reg_writes_set_main_brightness dev level s hl
  have htail : ∀ rw ∈ (if s.first_boot then [((0x17 : Nat), dev.max_current % 256)] else [])
      ++ reg_writes (lm3533_set_main_current_level dev level s).2,
      rw.1 = 0x17 ∨ rw.1 = 0x40 := by
    intro rw hrw
    rcases List.mem_append.mp hrw with h | h
    · cases hf : s.first_boot
      · simp [hf] at h
      · simp [hf] at h
        exact Or.inl (by rw [h])
    · exact Or.inr (hb rw h)
  refine ⟨reg_writes_backlight_on v dev level s, htail, fun hon rw hrw => ?_⟩
  rw [reg_writes_backlight_on, if_neg hon, List.nil_append] at hrw
  exact htail rw hrw

theorem activation_sequence_iff_off_witness :
    (0 : Int) < 50 ∧
    (reg_writes (lm3533_backlight_on pins256 scenario_dev 50 off_after_100).2
      = (if off_after_100.backlight_status = BL_OFF then activation_sequence else [])
        ++ ((if off_after_100.first_boot then [(0x17, scenario_dev.max_current % 256)] else [])
            ++ reg_writes (lm3533_set_main_current_level scenario_dev 50 off_after_100).2) ∧
    (∀ rw ∈ (if off_after_100.first_boot
              then [((0x17 : Nat), scenario_dev.max_current % 256)] else [])
            ++ reg_writes (lm3533_set_main_current_level scenario_dev 50 off_after_100).2,
        rw.1 = 0x17 ∨ rw.1 = 0x40) ∧
    (off_after_100.backlight_status ≠ BL_OFF →
      ∀ rw ∈ reg_writes (lm3533_backlight_on pins256 scenario_dev 50 off_after_100).2,
        rw.1 = 0x17 ∨ rw.1 = 0x40)) :=
  ⟨by decide, activation_sequence_iff_off pins256 scenario_dev 50 off_after_100 (by decide)⟩

/-! ## The current-limit write -/

/-- C18, as the code has it: a call that goes through lm3533_backlight_on
(resume, or set_level with a non-zero clamped level) writes the current-limit
register 0x17, once and with max_current, exactly when first_boot is still
set on entry, whether backlight_status is On or Off; with first_boot cleared
it never writes 0x17, and lm3533_backlight_off never does. -/
theorem current_limit_write_follows_first_boot (v : Int → Bool) (dev : lm3533_device)
    (level : Int) (s : State) :
    writes_to 0x17 (lm3533_backlight_on v dev level s).2
      = (if s.first_boot then [dev.max_current % 256] else []) ∧
    writes_to 0x17 (lm3533_bl_resume v dev s).2
      = (if s.first_boot then [dev.max_current % 256] else []) ∧
    writes_to 0x17 (lm3533_lcd_backlight_set_level v (some dev) level s).2
      = (if s.first_boot = true ∧
            (if level > dev.max_brightness then dev.max_brightness else level) ≠ 0
         then [dev.max_current % 256] else []) ∧
    writes_to 0x17 (lm3533_backlight_off dev s).2 = [] := by
  refine ⟨writes17_backlight_on v dev level s, writes17_backlight_on v dev _ s, ?_,
    writes17_backlight_off dev s⟩
  simp only [lm3533_lcd_backlight_set_level]
  by_cases hz : (if level > dev.max_brightness then dev.max_brightness else level) ≠ 0
  · rw [if_pos hz, writes17_backlight_on]
    cases hf : s.first_boot <;> simp [hz]
  · rw [if_neg hz, writes17_backlight_off]
    simp [hz]

/-- C18 fails at the initial state of the scenario configuration: set_level(5)
finds the power flag BL_ON, runs no activation sequence, and writes the
current-limit register 0x17. -/
theorem first_call_writes_current_limit_while_on :
    (initial_state scenario_pdata).backlight_status = BL_ON ∧
    (initial_state scenario_pdata).backlight_status ≠ BL_OFF ∧
    reg_writes (lm3533_lcd_backlight_set_level pins256 (some scenario_dev) 5
        (initial_state scenario_pdata)).2 = [(0x17, 0x17), (0x40, 10)] ∧
    writes_to 0x17 (lm3533_lcd_backlight_set_level pins256 (some scenario_dev) 5
        (initial_state scenario_pdata)).2 = [0x17] := by
  decide

/-! ## The calibration table -/

/-- C19: for every configuration with a calibration table and every level other
than 0, with c the clamped value: when c >= blmap_size,
lm3533_set_main_current_level performs no register write at all (it only
waits), and when c < blmap_size it performs exactly one, to register 0x40,
of the table entry at c. -/
theorem calibration_index_out_of_range (dev : lm3533_device) (table : Int → Int)
    (level : Int) (s : State) (hb : dev.blmap = some table) (hl : level ≠ 0) :
    (dev.blmap_size ≤ cal_value dev level →
      reg_writes (lm3533_set_main_current_level dev level s).2 = [] ∧
      (lm3533_set_main_current_level dev level s).2 = [Op.mdelay 1]) ∧
    (cal_value dev level < dev.blmap_size →
      reg_writes (lm3533_set_main_current_level dev level s).2
        = [(0x40, table (cal_value dev level) % 256)]) := by
  constructor
  · intro h
    have hn : ¬ cal_value dev level < dev.blmap_size := not_lt.mpr h
    refine ⟨by rw [reg_writes_set_main_table dev table level s hb hl, if_neg hn], ?_⟩
    simp [lm3533_set_main_current_level, hb, hl, hn]
  · intro h
    rw [reg_writes_set_main_table dev table level s hb hl, if_pos h]

theorem calibration_index_out_of_range_witness :
    short_table_dev.blmap = some (fun i => i) ∧ (100 : Int) ≠ 0 ∧
    ((short_table_dev.blmap_size ≤ cal_value short_table_dev 100 →
      reg_writes (lm3533_set_main_current_level short_table_dev 100 on_at_100).2 = [] ∧
      (lm3533_set_main_current_level short_table_dev 100 on_at_100).2 = [Op.mdelay 1]) ∧
    (cal_value short_table_dev 100 < short_table_dev.blmap_size →
      reg_writes (lm3533_set_main_current_level short_table_dev 100 on_at_100).2
        = [(0x40, (fun i : Int => i) (cal_value short_table_dev 100) % 256)])) :=
  ⟨rfl, by decide,
   calibration_index_out_of_range short_table_dev (fun i => i) 100 on_at_100 rfl (by decide)⟩

/-! ## Disabling the PWM input -/

theorem land_0x1F_range (x : Int) : 0 ≤ Int.land x 0x1F ∧ Int.land x 0x1F < 32 := by
  have h31 : (0x1F : Int) = Int.ofNat 31 := rfl
  rw [h31]
  cases x with
  | ofNat m =>
    simp only [Int.land]
    have : m &&& 31 ≤ 31 := Nat.and_le_right
    constructor <;> omega
  | negSucc m =>
    simp only [Int.land]
    have : Nat.ldiff 31 m < 2 ^ 5 := by
      apply Nat.lt_pow_two_of_testBit
      intro i hi
      rw [Nat.testBit_ldiff]
      have : Nat.testBit 31 i = false := by
        apply Nat.testBit_lt_two_pow
        calc 31 < 2 ^ 5 := by norm_num
          _ ≤ 2 ^ i := Nat.pow_le_pow_right (by norm_num) hi
      simp [this]
    constructor <;> omega

/-- C20: lm3533_lcd_backlight_pwm_disable returns every state variable
unchanged; with backlight_status BL_OFF it issues no operation, and otherwise
it issues exactly one, the write (0x17, max_current & 0x1F); the operations
do not depend on first_boot. -/
theorem pwm_disable_frame (dev : lm3533_device) (s : State) :
    (lm3533_lcd_backlight_pwm_disable dev s).1 = s ∧
    (s.backlight_status = BL_OFF → (lm3533_lcd_backlight_pwm_disable dev s).2 = []) ∧
    (s.backlight_status ≠ BL_OFF →
      (lm3533_lcd_backlight_pwm_disable dev s).2
        = [Op.write_reg 0x17 (Int.land dev.max_current 0x1F)]) ∧
    (∀ b : Bool, (lm3533_lcd_backlight_pwm_disable dev { s with first_boot := b }).2
      = (lm3533_lcd_backlight_pwm_disable dev s).2) := by
  obtain ⟨h0, h1⟩ := land_0x1F_range dev.max_current
  have hmod : Int.land dev.max_current 0x1F % 256 = Int.land dev.max_current 0x1F := by
    omega
  refine ⟨?_, ?_, ?_, ?_⟩
  · unfold lm3533_lcd_backlight_pwm_disable
    split_ifs <;> rfl
  · intro h
    simp [lm3533_lcd_backlight_pwm_disable, h]
  · intro h
    simp [lm3533_lcd_backlight_pwm_disable, h, lm3533_write_reg, hmod]
  · intro b
    unfold lm3533_lcd_backlight_pwm_disable
    by_cases h : s.backlight_status = BL_OFF <;> simp [h]

theorem pwm_disable_frame_witness :
    (lm3533_lcd_backlight_pwm_disable scenario_dev on_at_100).1 = on_at_100 ∧
    (lm3533_lcd_backlight_pwm_disable scenario_dev on_at_100).2 = [Op.write_reg 0x17 0x17] ∧
    (lm3533_lcd_backlight_pwm_disable scenario_dev off_after_100).2 = [] :=
  ⟨(pwm_disable_frame scenario_dev on_at_100).1, by decide,
   (pwm_disable_frame scenario_dev off_after_100).2.1 (by decide)⟩

end LM3533
